import Mathlib

/-!
Shallow embedding of the SkillBite data-model validation layer
(`tenancy/models.py`, `learning/models.py`, `progress/models.py`).

Entities become structures whose fields are the model fields the
validation hooks read; foreign keys to tenant-owned entities are embedded
as the referenced record (carrying its `tenant_id`), nullable foreign keys
as `Option`.  Each Django `clean()` method becomes a pure function
returning `Except String Unit`: `Except.error msg` embeds
`raise ValidationError(msg)`, and the nested if/else mirrors the
sequential `if ... raise` statements of the source (the first failing
check wins).  Primary keys and tenant ids are `Nat`; a nullable id is
`Option Nat`, with Python truthiness of such an id made explicit.
-/

namespace SkillBite

/-- Python truthiness of a nullable integer id (`None` and `0` are falsy). -/
def pyTruthyId : Option Nat → Bool
  | none => false
  | some n => n != 0

/-- Tenant-owned `Course` (learning/models.py): only the primary key and the
tenant id are read by the validation hooks. -/
structure Course where
  id : Nat
  tenant_id : Nat
deriving DecidableEq

/-- Tenant-owned `LearningPath` (learning/models.py). -/
structure LearningPath where
  id : Nat
  tenant_id : Nat
deriving DecidableEq

/-- `User` (tenancy/models.py): `tenant` is a nullable foreign key, so
`tenant_id` is `Option Nat`; `is_superuser` comes from `AbstractUser`. -/
structure User where
  tenant_id : Option Nat
  is_superuser : Bool
deriving DecidableEq

/-- `Branch` (tenancy/models.py): non-nullable tenant foreign key. -/
structure Branch where
  tenant_id : Nat
deriving DecidableEq

/-- `Role` (tenancy/models.py): non-nullable tenant foreign key. -/
structure Role where
  tenant_id : Nat
deriving DecidableEq

/-- `Quiz` (learning/models.py). -/
structure Quiz where
  tenant_id : Nat
deriving DecidableEq

/-- `Module` (learning/models.py): tenant-owned, belongs to a `Course`,
with a sibling `order` subject to the `(course, order)` unique constraint. -/
structure Module where
  tenant_id : Nat
  course : Course
  order : Nat
deriving DecidableEq

/-- `Lesson` (learning/models.py): tenant-owned, belongs to a `Module`. -/
structure Lesson where
  tenant_id : Nat
  module : Module
deriving DecidableEq

/-- `LearningPathCourse` (learning/models.py): ordering join table between
`LearningPath` and `Course`. -/
structure LearningPathCourse where
  path : LearningPath
  course : Course
  order : Nat
deriving DecidableEq

/-- `SOPVersion` (learning/models.py): belongs to a SOP, with a nullable
`published_at` timestamp (embedded as `Option Nat`). -/
structure SOPVersion where
  sop_id : Nat
  version : Nat
  content : String
  published_at : Option Nat
deriving DecidableEq

/-- `Enrollment` (progress/models.py): tenant-owned, belongs to a `User`,
and to exactly one of a `Course` or a `LearningPath`. -/
structure Enrollment where
  tenant_id : Nat
  user : User
  course : Option Course
  path : Option LearningPath
deriving DecidableEq

/-- `Assignment.Kind` text choices (progress/models.py). -/
inductive AssignmentKind where
  | course
  | path
deriving DecidableEq

/-- `Assignment` (progress/models.py): kind, nullable content references and
nullable targets, exactly one target expected. -/
structure Assignment where
  tenant_id : Nat
  kind : AssignmentKind
  course : Option Course
  path : Option LearningPath
  target_user : Option User
  target_branch : Option Branch
  target_role : Option Role
deriving DecidableEq

/-- `LessonProgress` (progress/models.py). -/
structure LessonProgress where
  tenant_id : Nat
  user : User
  lesson : Lesson
  percent : Nat
deriving DecidableEq

/-- `QuizAttempt` (progress/models.py). -/
structure QuizAttempt where
  tenant_id : Nat
  user : User
  quiz : Quiz
  score_percent : Nat
deriving DecidableEq

/-- `Certificate` (progress/models.py). -/
structure Certificate where
  tenant_id : Nat
  user : User
  course : Option Course
  path : Option LearningPath
deriving DecidableEq

/-- `UserBranch` (tenancy/models.py): membership join of user and branch. -/
structure UserBranch where
  user : User
  branch : Branch
deriving DecidableEq

/-- `UserRole` (tenancy/models.py): role assignment join of user and role. -/
structure UserRole where
  user : User
  role : Role
deriving DecidableEq

/-- The Python idiom `if self.X and self.X.tenant_id != self.tenant_id`
for a nullable foreign key `X` whose target has a non-nullable tenant:
true exactly when the reference is set and its tenant differs. -/
def fkMismatch {α : Type} (f : α → Nat) : Option α → Nat → Bool
  | some x, t => f x != t
  | none, _ => false

/-- The same idiom for a nullable `User` reference, whose own `tenant_id`
is nullable: `self.X.tenant_id != self.tenant_id` compares an optional id
against a set one. -/
def userFkMismatch : Option User → Nat → Bool
  | some u, t => u.tenant_id != some t
  | none, _ => false

/-- `Module.clean` (learning/models.py lines 115-118). -/
def Module.clean (m : Module) : Except String Unit :=
  if m.tenant_id ≠ m.course.tenant_id then
    Except.error "Module tenant must match course tenant."
  else Except.ok ()

/-- `Lesson.clean` (learning/models.py lines 161-171; the per-kind checks
after the tenant check are explicit no-ops in the source). -/
def Lesson.clean (l : Lesson) : Except String Unit :=
  if l.tenant_id ≠ l.module.tenant_id then
    Except.error "Lesson tenant must match module tenant."
  else Except.ok ()

/-- `LearningPathCourse.clean` (learning/models.py lines 96-99). -/
def LearningPathCourse.clean (pc : LearningPathCourse) : Except String Unit :=
  if pc.path.tenant_id ≠ pc.course.tenant_id then
    Except.error "Path and Course must belong to the same tenant."
  else Except.ok ()

/-- `SOPVersion.publish` (learning/models.py lines 217-218): sets
`published_at` to the current time, passed here explicitly. -/
def SOPVersion.publish (v : SOPVersion) (now : Nat) : SOPVersion :=
  { v with published_at := some now }

/-- `User.clean` (tenancy/models.py lines 98-102). -/
def User.clean (u : User) : Except String Unit :=
  if u.is_superuser = false ∧ u.tenant_id = none then
    Except.error "Non-superuser accounts must belong to a tenant."
  else Except.ok ()

/-- `UserBranch.clean` (tenancy/models.py lines 124-128): the comparison is
guarded by Python truthiness of both tenant ids. -/
def UserBranch.clean (ub : UserBranch) : Except String Unit :=
  if pyTruthyId ub.user.tenant_id = true ∧ ub.branch.tenant_id ≠ 0 ∧
      ub.user.tenant_id ≠ some ub.branch.tenant_id then
    Except.error "User and Branch must belong to the same tenant."
  else Except.ok ()

/-- `UserRole.clean` (tenancy/models.py lines 167-171). -/
def UserRole.clean (ur : UserRole) : Except String Unit :=
  if pyTruthyId ur.user.tenant_id = true ∧ ur.role.tenant_id ≠ 0 ∧
      ur.user.tenant_id ≠ some ur.role.tenant_id then
    Except.error "User and Role must belong to the same tenant."
  else Except.ok ()

/-- `Enrollment.clean` (progress/models.py lines 42-51). -/
def Enrollment.clean (e : Enrollment) : Except String Unit :=
  if (e.course = none ∧ e.path = none) ∨ (e.course ≠ none ∧ e.path ≠ none) then
    Except.error "Enrollment must have exactly one of course or path."
  else if pyTruthyId e.user.tenant_id = true ∧ e.tenant_id ≠ 0 ∧
      e.user.tenant_id ≠ some e.tenant_id then
    Except.error "Enrollment tenant must match user tenant."
  else if fkMismatch Course.tenant_id e.course e.tenant_id = true then
    Except.error "Enrollment tenant must match course tenant."
  else if fkMismatch LearningPath.tenant_id e.path e.tenant_id = true then
    Except.error "Enrollment tenant must match path tenant."
  else Except.ok ()

/-- `sum(1 for t in targets if t is not None)` over the three Assignment
targets (progress/models.py line 112-113). -/
def Assignment.targetCount (a : Assignment) : Nat :=
  (if a.target_user ≠ none then 1 else 0) +
  (if a.target_branch ≠ none then 1 else 0) +
  (if a.target_role ≠ none then 1 else 0)

/-- `Assignment.clean` (progress/models.py lines 100-126). -/
def Assignment.clean (a : Assignment) : Except String Unit :=
  if a.kind = AssignmentKind.course ∧ (a.course = none ∨ a.path ≠ none) then
    Except.error "Course assignment must have course set and path empty."
  else if a.kind = AssignmentKind.path ∧ (a.path = none ∨ a.course ≠ none) then
    Except.error "Path assignment must have path set and course empty."
  else if a.targetCount ≠ 1 then
    Except.error "Assignment must target exactly one of user, branch, or role."
  else if fkMismatch Course.tenant_id a.course a.tenant_id = true then
    Except.error "Assignment tenant must match course tenant."
  else if fkMismatch LearningPath.tenant_id a.path a.tenant_id = true then
    Except.error "Assignment tenant must match path tenant."
  else if userFkMismatch a.target_user a.tenant_id = true then
    Except.error "Assignment tenant must match user tenant."
  else if fkMismatch Branch.tenant_id a.target_branch a.tenant_id = true then
    Except.error "Assignment tenant must match branch tenant."
  else if fkMismatch Role.tenant_id a.target_role a.tenant_id = true then
    Except.error "Assignment tenant must match role tenant."
  else Except.ok ()

/-- `LessonProgress.clean` (progress/models.py lines 153-160): the user and
lesson tenant comparisons are unconditional. -/
def LessonProgress.clean (p : LessonProgress) : Except String Unit :=
  if p.user.tenant_id ≠ some p.tenant_id then
    Except.error "LessonProgress tenant must match user tenant."
  else if p.lesson.tenant_id ≠ p.tenant_id then
    Except.error "LessonProgress tenant must match lesson tenant."
  else if p.percent > 100 then
    Except.error "percent must be between 0 and 100."
  else Except.ok ()

/-- `QuizAttempt.clean` (progress/models.py lines 179-186). -/
def QuizAttempt.clean (q : QuizAttempt) : Except String Unit :=
  if q.user.tenant_id ≠ some q.tenant_id then
    Except.error "QuizAttempt tenant must match user tenant."
  else if q.quiz.tenant_id ≠ q.tenant_id then
    Except.error "QuizAttempt tenant must match quiz tenant."
  else if q.score_percent > 100 then
    Except.error "score_percent must be between 0 and 100."
  else Except.ok ()

/-- `Certificate.clean` (progress/models.py lines 279-288): the user tenant
comparison is unconditional. -/
def Certificate.clean (c : Certificate) : Except String Unit :=
  if (c.course = none ∧ c.path = none) ∨ (c.course ≠ none ∧ c.path ≠ none) then
    Except.error "Certificate must have exactly one of course or path."
  else if c.user.tenant_id ≠ some c.tenant_id then
    Except.error "Certificate tenant must match user tenant."
  else if fkMismatch Course.tenant_id c.course c.tenant_id = true then
    Except.error "Certificate tenant must match course tenant."
  else if fkMismatch LearningPath.tenant_id c.path c.tenant_id = true then
    Except.error "Certificate tenant must match path tenant."
  else Except.ok ()

/-- Number of the two exactly-one-of content references that are set. -/
def setCount2 {α β : Type} (x : Option α) (y : Option β) : Nat :=
  (if x.isSome then 1 else 0) + (if y.isSome then 1 else 0)

/-- The `uq_module_course_order` unique constraint of `Module.Meta`
(learning/models.py lines 107-113): a set of module rows respects it when
no two rows share the `(course, order)` key. -/
def uqModuleCourseOrder (ms : List Module) : Prop :=
  (ms.map fun m => (m.course.id, m.order)).Nodup

instance (ms : List Module) : Decidable (uqModuleCourseOrder ms) :=
  List.nodupDecidable _

/-- The `uq_path_course_order` unique constraint of `LearningPathCourse.Meta`
(learning/models.py lines 87-94): no two rows share the `(path, order)` key. -/
def uqPathCourseOrder (pcs : List LearningPathCourse) : Prop :=
  (pcs.map fun pc => (pc.path.id, pc.order)).Nodup

instance (pcs : List LearningPathCourse) : Decidable (uqPathCourseOrder pcs) :=
  List.nodupDecidable _

/-- Modelled from the spec: the persistence pipeline is in the excluded
admin/forms layer, which "delegates all invariant checking to the data
model's validation hooks before persistence"; a failed validation rejects
the entire entity write and persists no partial state.  The stored rows are
a list; a successful save appends the validated entity unchanged. -/
def Assignment.save (db : List Assignment) (a : Assignment) :
    Except String (List Assignment) :=
  match a.clean with
  | Except.error m => Except.error m
  | Except.ok _ => Except.ok (db ++ [a])

/-- Modelled from the spec: the same validate-then-persist pipeline for
`Certificate` writes. -/
def Certificate.save (db : List Certificate) (c : Certificate) :
    Except String (List Certificate) :=
  match c.clean with
  | Except.error m => Except.error m
  | Except.ok _ => Except.ok (db ++ [c])

/-- Whether the two kind/content linkage checks of `Assignment.clean`
(progress/models.py lines 103-109) both pass. -/
def Assignment.kindContentOk (a : Assignment) : Prop :=
  ¬(a.kind = AssignmentKind.course ∧ (a.course = none ∨ a.path ≠ none)) ∧
  ¬(a.kind = AssignmentKind.path ∧ (a.path = none ∨ a.course ≠ none))

instance (a : Assignment) : Decidable a.kindContentOk := by
  unfold Assignment.kindContentOk; infer_instance

/-- Claim C1: for tenant-owned parent/child pairs (Module under Course,
Lesson under Module, LessonProgress under user and lesson), validation of a
child whose tenant differs from its parent's raises a failure whose message
identifies the mismatched relation; equal tenants raise no tenant error
(for LessonProgress the remaining check can only be the percent bound). -/
theorem tenant_pair_validation :
    (∀ m : Module, (m.tenant_id ≠ m.course.tenant_id →
        m.clean = Except.error "Module tenant must match course tenant.") ∧
      (m.tenant_id = m.course.tenant_id → m.clean = Except.ok ())) ∧
    (∀ l : Lesson, (l.tenant_id ≠ l.module.tenant_id →
        l.clean = Except.error "Lesson tenant must match module tenant.") ∧
      (l.tenant_id = l.module.tenant_id → l.clean = Except.ok ())) ∧
    (∀ p : LessonProgress,
      (p.user.tenant_id ≠ some p.tenant_id →
        p.clean = Except.error "LessonProgress tenant must match user tenant.") ∧
      (p.user.tenant_id = some p.tenant_id → p.lesson.tenant_id ≠ p.tenant_id →
        p.clean = Except.error "LessonProgress tenant must match lesson tenant.") ∧
      (p.user.tenant_id = some p.tenant_id → p.lesson.tenant_id = p.tenant_id →
        p.clean = Except.ok () ∨
          p.clean = Except.error "percent must be between 0 and 100.")) := by
  refine ⟨fun m => ⟨fun h => ?_, fun h => ?_⟩,
    fun l => ⟨fun h => ?_, fun h => ?_⟩,
    fun p => ⟨fun h => ?_, fun h1 h2 => ?_, fun h1 h2 => ?_⟩⟩ <;>
    simp [Module.clean, Lesson.clean, LessonProgress.clean, *]
  exact le_or_lt p.percent 100

/-- Concrete instantiation of `tenant_pair_validation`: a Module whose
tenant (1) differs from its course's tenant (2) fails with the module
message, a matching one passes, and the Lesson and LessonProgress mismatch
cases produce their own relation-specific messages. -/
theorem tenant_pair_validation_witness :
    Module.clean ⟨1, ⟨10, 2⟩, 1⟩ =
        Except.error "Module tenant must match course tenant." ∧
    Module.clean ⟨2, ⟨10, 2⟩, 1⟩ = Except.ok () ∧
    Lesson.clean ⟨3, ⟨7, ⟨10, 7⟩, 1⟩⟩ =
        Except.error "Lesson tenant must match module tenant." ∧
    LessonProgress.clean ⟨5, ⟨some 5, false⟩, ⟨9, ⟨5, ⟨10, 5⟩, 1⟩⟩, 0⟩ =
        Except.error "LessonProgress tenant must match lesson tenant." :=
  ⟨(tenant_pair_validation.1 _).1 (by decide),
    (tenant_pair_validation.1 _).2 (by decide),
    (tenant_pair_validation.2.1 _).1 (by decide),
    (tenant_pair_validation.2.2 _).2.1 (by decide) (by decide)⟩

/-- Claim C2: Enrollment and Certificate validation raises the
exactly-one-of error precisely when the number of set fields among
course/path is not one (zero or two); with exactly one set, that check
passes. -/
theorem exactly_one_course_or_path :
    (∀ e : Enrollment,
      (e.clean = Except.error "Enrollment must have exactly one of course or path." ↔
        setCount2 e.course e.path ≠ 1)) ∧
    (∀ c : Certificate,
      (c.clean = Except.error "Certificate must have exactly one of course or path." ↔
        setCount2 c.course c.path ≠ 1)) := by
  constructor
  · rintro ⟨t, u, co, pa⟩
    rcases co with _ | c <;> rcases pa with _ | p <;>
      simp [Enrollment.clean, setCount2]
    all_goals split_ifs <;> simp
  · rintro ⟨t, u, co, pa⟩
    rcases co with _ | c <;> rcases pa with _ | p <;>
      simp [Certificate.clean, setCount2]
    all_goals split_ifs <;> simp

/-- Concrete instantiation of `exactly_one_course_or_path`: an Enrollment
with both course and path unset fails the exactly-one check, and a
Certificate with both set fails it too. -/
theorem exactly_one_course_or_path_witness :
    Enrollment.clean ⟨1, ⟨some 1, false⟩, none, none⟩ =
        Except.error "Enrollment must have exactly one of course or path." ∧
    Certificate.clean ⟨1, ⟨some 1, false⟩, some ⟨4, 1⟩, some ⟨6, 1⟩⟩ =
        Except.error "Certificate must have exactly one of course or path." :=
  ⟨(exactly_one_course_or_path.1 _).mpr (by decide),
    (exactly_one_course_or_path.2 _).mpr (by decide)⟩

/-- Claim C3: when the kind/content checks pass, Assignment validation
raises the target error exactly when the number of set targets among
target_user/target_branch/target_role differs from one; and whenever that
count differs from one, validation fails (never returns ok). -/
theorem assignment_target_exactly_one :
    (∀ a : Assignment, a.kindContentOk →
      (a.clean = Except.error "Assignment must target exactly one of user, branch, or role." ↔
        a.targetCount ≠ 1)) ∧
    (∀ a : Assignment, a.targetCount ≠ 1 → a.clean ≠ Except.ok ()) := by
  constructor
  · rintro a ⟨h1, h2⟩
    rw [Assignment.clean, if_neg h1, if_neg h2]
    by_cases ht : a.targetCount = 1
    · simp [ht]
      split_ifs <;> simp
    · simp [ht]
  · intro a ht
    rw [Assignment.clean]
    split_ifs <;> simp_all

/-- Concrete instantiation of `assignment_target_exactly_one`: a course
assignment with a course set and no target at all fails with the target
message, and with two targets set it cannot validate. -/
theorem assignment_target_exactly_one_witness :
    Assignment.clean ⟨1, AssignmentKind.course, some ⟨2, 1⟩, none, none, none, none⟩ =
        Except.error "Assignment must target exactly one of user, branch, or role." ∧
    Assignment.clean ⟨1, AssignmentKind.course, some ⟨2, 1⟩, none,
        some ⟨some 1, false⟩, some ⟨1⟩, none⟩ ≠ Except.ok () :=
  ⟨(assignment_target_exactly_one.1 _ (by decide)).mpr (by decide),
    assignment_target_exactly_one.2 _ (by decide)⟩

/-- Claim C4: Assignment validation enforces kind/content agreement: with
kind = course the course-linkage error is raised exactly when course is
unset or path is set; with kind = path symmetrically; and when the kind
matches the single set content reference, neither linkage error can be
raised. -/
theorem assignment_kind_content_agreement :
    (∀ a : Assignment, a.kind = AssignmentKind.course →
      (a.clean = Except.error "Course assignment must have course set and path empty." ↔
        (a.course = none ∨ a.path ≠ none))) ∧
    (∀ a : Assignment, a.kind = AssignmentKind.path →
      (a.clean = Except.error "Path assignment must have path set and course empty." ↔
        (a.path = none ∨ a.course ≠ none))) ∧
    (∀ a : Assignment, a.kindContentOk →
      a.clean ≠ Except.error "Course assignment must have course set and path empty." ∧
      a.clean ≠ Except.error "Path assignment must have path set and course empty.") := by
  refine ⟨fun a hk => ?_, fun a hk => ?_, fun a hk => ⟨?_, ?_⟩⟩
  · by_cases hc : a.course = none ∨ a.path ≠ none
    · simp [Assignment.clean, hk, hc]
    · simp [Assignment.clean, hk, hc]
      split_ifs <;> simp
  · by_cases hc : a.path = none ∨ a.course ≠ none
    · simp [Assignment.clean, hk, hc]
    · simp [Assignment.clean, hk, hc]
      split_ifs <;> simp
  · rw [Assignment.clean, if_neg hk.1, if_neg hk.2]
    split_ifs <;> simp
  · rw [Assignment.clean, if_neg hk.1, if_neg hk.2]
    split_ifs <;> simp

/-- Concrete instantiation of `assignment_kind_content_agreement`: a
kind = course assignment with a path set fails the linkage check, a
kind = path one with path unset fails, and a matching course assignment
raises neither linkage error. -/
theorem assignment_kind_content_agreement_witness :
    Assignment.clean ⟨1, AssignmentKind.course, some ⟨2, 1⟩, some ⟨3, 1⟩,
        some ⟨some 1, false⟩, none, none⟩ =
      Except.error "Course assignment must have course set and path empty." ∧
    Assignment.clean ⟨1, AssignmentKind.path, none, none,
        some ⟨some 1, false⟩, none, none⟩ =
      Except.error "Path assignment must have path set and course empty." ∧
    Assignment.clean ⟨1, AssignmentKind.course, some ⟨2, 1⟩, none,
        some ⟨some 1, false⟩, none, none⟩ ≠
      Except.error "Course assignment must have course set and path empty." :=
  ⟨(assignment_kind_content_agreement.1 _ (by decide)).mpr (by decide),
    (assignment_kind_content_agreement.2.1 _ (by decide)).mpr (by decide),
    (assignment_kind_content_agreement.2.2 _ (by decide)).1⟩

/-- Claim C5: LessonProgress validation can never succeed with
percent > 100 and never raises the percent-bound error with
percent ≤ 100; with matching tenants it succeeds exactly when
percent ≤ 100 (so percent = 100 passes).  Likewise for
QuizAttempt.score_percent. -/
theorem percent_bounds :
    (∀ p : LessonProgress, 100 < p.percent → p.clean ≠ Except.ok ()) ∧
    (∀ p : LessonProgress, p.percent ≤ 100 →
      p.clean ≠ Except.error "percent must be between 0 and 100.") ∧
    (∀ p : LessonProgress, p.user.tenant_id = some p.tenant_id →
      p.lesson.tenant_id = p.tenant_id →
      (p.clean = Except.ok () ↔ p.percent ≤ 100)) ∧
    (∀ q : QuizAttempt, 100 < q.score_percent → q.clean ≠ Except.ok ()) ∧
    (∀ q : QuizAttempt, q.score_percent ≤ 100 →
      q.clean ≠ Except.error "score_percent must be between 0 and 100.") ∧
    (∀ q : QuizAttempt, q.user.tenant_id = some q.tenant_id →
      q.quiz.tenant_id = q.tenant_id →
      (q.clean = Except.ok () ↔ q.score_percent ≤ 100)) := by
  refine ⟨fun p h => ?_, fun p h => ?_, fun p h1 h2 => ?_,
    fun q h => ?_, fun q h => ?_, fun q h1 h2 => ?_⟩
  · rw [LessonProgress.clean]; split_ifs <;> simp_all
  · rw [LessonProgress.clean]
    split_ifs <;> simp_all
    omega
  · simp [LessonProgress.clean, h1, h2]
  · rw [QuizAttempt.clean]; split_ifs <;> simp_all
  · rw [QuizAttempt.clean]
    split_ifs <;> simp_all
    omega
  · simp [QuizAttempt.clean, h1, h2]

/-- Concrete instantiation of `percent_bounds`: percent 101 cannot
validate, percent 100 on a tenant-consistent record validates, and the
same at score_percent for a quiz attempt. -/
theorem percent_bounds_witness :
    LessonProgress.clean ⟨1, ⟨some 1, false⟩, ⟨1, ⟨1, ⟨10, 1⟩, 1⟩⟩, 101⟩ ≠ Except.ok () ∧
    LessonProgress.clean ⟨1, ⟨some 1, false⟩, ⟨1, ⟨1, ⟨10, 1⟩, 1⟩⟩, 100⟩ = Except.ok () ∧
    QuizAttempt.clean ⟨1, ⟨some 1, false⟩, ⟨1⟩, 101⟩ ≠ Except.ok () ∧
    QuizAttempt.clean ⟨1, ⟨some 1, false⟩, ⟨1⟩, 100⟩ = Except.ok () :=
  ⟨percent_bounds.1 _ (by decide),
    (percent_bounds.2.2.1 _ (by decide) (by decide)).mpr (by decide),
    percent_bounds.2.2.2.1 _ (by decide),
    (percent_bounds.2.2.2.2.2 _ (by decide) (by decide)).mpr (by decide)⟩

/-- Claim C6: SOPVersion.publish sets published_at to the current time
(passed explicitly in the embedding), never fails (it is a total
function), and republishing only moves the timestamp: publishing after a
publish equals a single publish at the later time, and every other field
is unchanged. -/
theorem sopversion_publish_idempotent :
    ∀ (v : SOPVersion) (t1 t2 : Nat),
      (v.publish t1).published_at = some t1 ∧
      (v.publish t1).publish t2 = v.publish t2 ∧
      (v.publish t1).sop_id = v.sop_id ∧
      (v.publish t1).version = v.version ∧
      (v.publish t1).content = v.content :=
  fun _ _ _ => ⟨rfl, rfl, rfl, rfl, rfl⟩

/-- Claim C7: the `(course, order)` uniqueness constraint on Module rows
forbids two modules of the same course with the same order, permits the
same order under different courses, and permits any distinct order values
(gaps included) under one course — there is no re-sequencing; the
`(path, order)` constraint on LearningPathCourse behaves the same way. -/
theorem module_order_uniqueness :
    (∀ m1 m2 : Module, m1.course.id = m2.course.id → m1.order = m2.order →
      ¬ uqModuleCourseOrder [m1, m2]) ∧
    (∀ m1 m2 : Module, m1.course.id ≠ m2.course.id →
      uqModuleCourseOrder [m1, m2]) ∧
    (∀ m1 m2 : Module, m1.course.id = m2.course.id → m1.order ≠ m2.order →
      uqModuleCourseOrder [m1, m2]) ∧
    (∀ pc1 pc2 : LearningPathCourse, pc1.path.id = pc2.path.id →
      pc1.order = pc2.order → ¬ uqPathCourseOrder [pc1, pc2]) ∧
    (∀ pc1 pc2 : LearningPathCourse, pc1.path.id ≠ pc2.path.id →
      uqPathCourseOrder [pc1, pc2]) := by
  refine ⟨fun m1 m2 h1 h2 => ?_, fun m1 m2 h1 => ?_, fun m1 m2 h1 h2 => ?_,
    fun pc1 pc2 h1 h2 => ?_, fun pc1 pc2 h1 => ?_⟩ <;>
    simp [uqModuleCourseOrder, uqPathCourseOrder, Prod.ext_iff, h1] <;>
    simp [h2]

/-- Concrete instantiation of `module_order_uniqueness`, the spec's §8
scenario: two modules of course 5 both at order 1 violate the constraint;
a module of course 6 at order 1 and a module of course 5 at order 7 (a
gap) do not. -/
theorem module_order_uniqueness_witness :
    ¬ uqModuleCourseOrder [⟨1, ⟨5, 1⟩, 1⟩, ⟨1, ⟨5, 1⟩, 1⟩] ∧
    uqModuleCourseOrder [⟨1, ⟨5, 1⟩, 1⟩, ⟨1, ⟨6, 1⟩, 1⟩] ∧
    uqModuleCourseOrder [⟨1, ⟨5, 1⟩, 1⟩, ⟨1, ⟨5, 1⟩, 7⟩] :=
  ⟨module_order_uniqueness.1 _ _ (by decide) (by decide),
    module_order_uniqueness.2.1 _ _ (by decide),
    module_order_uniqueness.2.2.1 _ _ (by decide) (by decide)⟩

/-- Claim C8: User validation rejects a non-superuser without a tenant
with the dedicated message, while a superuser without a tenant and any
user with a tenant pass. -/
theorem user_requires_tenant :
    (∀ u : User, u.is_superuser = false → u.tenant_id = none →
      u.clean = Except.error "Non-superuser accounts must belong to a tenant.") ∧
    (∀ u : User, u.is_superuser = true → u.clean = Except.ok ()) ∧
    (∀ u : User, u.tenant_id ≠ none → u.clean = Except.ok ()) := by
  refine ⟨fun u h1 h2 => ?_, fun u h => ?_, fun u h => ?_⟩ <;>
    simp [User.clean, *]

/-- Concrete instantiation of `user_requires_tenant`: a tenant-less
non-superuser fails, a tenant-less superuser passes, and a non-superuser
with tenant 3 passes. -/
theorem user_requires_tenant_witness :
    User.clean ⟨none, false⟩ =
        Except.error "Non-superuser accounts must belong to a tenant." ∧
    User.clean ⟨none, true⟩ = Except.ok () ∧
    User.clean ⟨some 3, false⟩ = Except.ok () :=
  ⟨user_requires_tenant.1 _ (by decide) (by decide),
    user_requires_tenant.2.1 _ (by decide),
    user_requires_tenant.2.2 _ (by decide)⟩

/-- Claim C9: the validate-then-persist pipeline is all-or-nothing: a
validation error is returned before any write and the stored rows gain
nothing, while a successful validation appends the entity exactly as
validated — the validation hook is a pure function of the entity and
modifies none of its fields. -/
theorem validation_before_persistence :
    (∀ (db : List Assignment) (a : Assignment) (m : String),
      a.clean = Except.error m → a.save db = Except.error m) ∧
    (∀ (db : List Assignment) (a : Assignment),
      a.clean = Except.ok () → a.save db = Except.ok (db ++ [a])) ∧
    (∀ (db : List Certificate) (c : Certificate) (m : String),
      c.clean = Except.error m → c.save db = Except.error m) ∧
    (∀ (db : List Certificate) (c : Certificate),
      c.clean = Except.ok () → c.save db = Except.ok (db ++ [c])) := by
  refine ⟨fun db a m h => ?_, fun db a h => ?_,
    fun db c m h => ?_, fun db c h => ?_⟩ <;>
    simp [Assignment.save, Certificate.save, h]

/-- Concrete instantiation of `validation_before_persistence`: saving an
invalid assignment into an empty store returns the validation error and
stores nothing, and saving a valid certificate appends exactly it. -/
theorem validation_before_persistence_witness :
    Assignment.save [] ⟨1, AssignmentKind.course, none, none, none, none, none⟩ =
        Except.error "Course assignment must have course set and path empty." ∧
    Certificate.save [] ⟨1, ⟨some 1, false⟩, some ⟨4, 1⟩, none⟩ =
        Except.ok [⟨1, ⟨some 1, false⟩, some ⟨4, 1⟩, none⟩] :=
  ⟨validation_before_persistence.1 [] _ _ rfl,
    validation_before_persistence.2.2.2 [] _ rfl⟩

/-- Claim C10: for a user whose tenant is null, Enrollment, UserBranch
and UserRole validation skip the user-tenant comparison (no user-mismatch
error can arise, and the latter two succeed outright), whereas
LessonProgress and QuizAttempt compare unconditionally and fail with the
user-mismatch message, and Certificate does the same once its preceding
exactly-one-of check passes. -/
theorem null_tenant_user_check_asymmetry :
    (∀ e : Enrollment, e.user.tenant_id = none →
      e.clean ≠ Except.error "Enrollment tenant must match user tenant.") ∧
    (∀ ub : UserBranch, ub.user.tenant_id = none → ub.clean = Except.ok ()) ∧
    (∀ ur : UserRole, ur.user.tenant_id = none → ur.clean = Except.ok ()) ∧
    (∀ p : LessonProgress, p.user.tenant_id = none →
      p.clean = Except.error "LessonProgress tenant must match user tenant.") ∧
    (∀ q : QuizAttempt, q.user.tenant_id = none →
      q.clean = Except.error "QuizAttempt tenant must match user tenant.") ∧
    (∀ c : Certificate, c.user.tenant_id = none →
      setCount2 c.course c.path = 1 →
      c.clean = Except.error "Certificate tenant must match user tenant.") := by
  refine ⟨fun e h => ?_, fun ub h => ?_, fun ur h => ?_,
    fun p h => ?_, fun q h => ?_, fun c h h1 => ?_⟩
  · rw [Enrollment.clean]
    split_ifs with c1 c2 <;> simp_all [pyTruthyId]
  · simp [UserBranch.clean, h, pyTruthyId]
  · simp [UserRole.clean, h, pyTruthyId]
  · simp [LessonProgress.clean, h]
  · simp [QuizAttempt.clean, h]
  · rcases c with ⟨t, u, co, pa⟩
    rcases co with _ | c0 <;> rcases pa with _ | p0 <;>
      simp_all [Certificate.clean, setCount2]

/-- Concrete instantiation of `null_tenant_user_check_asymmetry` at a
tenant-less user: the enrollment does not raise the user-mismatch
message, the branch membership validates, and the lesson progress and
certificate raise their user-mismatch messages. -/
theorem null_tenant_user_check_asymmetry_witness :
    Enrollment.clean ⟨1, ⟨none, false⟩, some ⟨4, 1⟩, none⟩ ≠
        Except.error "Enrollment tenant must match user tenant." ∧
    UserBranch.clean ⟨⟨none, false⟩, ⟨2⟩⟩ = Except.ok () ∧
    LessonProgress.clean ⟨1, ⟨none, false⟩, ⟨1, ⟨1, ⟨10, 1⟩, 1⟩⟩, 0⟩ =
        Except.error "LessonProgress tenant must match user tenant." ∧
    Certificate.clean ⟨1, ⟨none, false⟩, some ⟨4, 1⟩, none⟩ =
        Except.error "Certificate tenant must match user tenant." :=
  ⟨null_tenant_user_check_asymmetry.1 _ (by decide),
    null_tenant_user_check_asymmetry.2.1 _ (by decide),
    null_tenant_user_check_asymmetry.2.2.2.1 _ (by decide),
    null_tenant_user_check_asymmetry.2.2.2.2.2 _ (by decide) (by decide)⟩

end SkillBite
